import Mathlib

/-!
Verification of the metrics-aggregation and hotspot-ranking engine of the
`code_quality` repository (Python sources `quality.py`, `main.py`, `tui.py`).

The Python code is shallowly embedded:
* Python `float` metric values (maintainability index, averages,
  percentages) are modelled as `Rat`; the claims under study only involve
  comparisons, counting and exact small-denominator arithmetic.
* Python dataclasses become structures with the same field names.
* Python `dict[str, int]` (insertion-ordered) becomes an association list
  `List (String × Nat)`; `d[k] = v` keeps the position of an existing key
  and appends new keys, exactly like a Python dict.
* Python's `sorted(xs, key=...)` (a stable ascending sort) is modelled by a
  stable insertion sort `sortS`; the theorems below prove the output is
  sorted, a permutation of the input and stable, which determines the
  function uniquely, so any correct model of `sorted` is extensionally equal.
* `statistics.mean` on a non-empty list is sum / length.
-/

/-- Embeds the dataclass `FileMetrics` of `quality.py` (identical in
`main.py`). -/
structure FileMetrics where
  path : String
  sloc : Nat
  lloc : Nat
  comments : Nat
  complexity_grades : List (String × Nat)
  worst_cc : Nat
  worst_cc_rank : String
  mi : Rat
  mi_rank : String
  total_functions : Nat
  typed_functions : Nat
  cognitive_complexity : Nat
  max_function_cognitive_complexity : Nat
  deriving DecidableEq, Repr

/-- Embeds the dataclass `FunctionMetrics` of `quality.py`. -/
structure FunctionMetrics where
  file : String
  name : String
  lineno : Nat
  cognitive_complexity : Nat
  deriving DecidableEq, Repr

/-- Embeds the dataclass `ProjectSummary` of `quality.py` (identical in
`main.py`). -/
structure ProjectSummary where
  root : String
  files_scanned : Nat
  total_sloc : Nat
  avg_sloc_per_file : Rat
  avg_mi : Rat
  low_mi_files : Nat
  high_complexity_functions : Nat
  cc_grade_counts : List (String × Nat)
  total_functions : Nat
  typed_functions : Nat
  typing_coverage : Rat
  avg_cognitive_complexity : Rat
  max_cognitive_complexity : Nat
  deriving DecidableEq, Repr

/-- Python `d.get(k, 0)` on the association-list model of a dict. -/
def dictGetD (d : List (String × Nat)) (k : String) : Nat :=
  match d.find? (fun p => p.1 == k) with
  | some p => p.2
  | none => 0

/-- Python `d[k] = v`: an existing key keeps its position, a new key is
appended (insertion order, as for a Python dict). -/
def dictSet (d : List (String × Nat)) (k : String) (v : Nat) : List (String × Nat) :=
  if d.any (fun p => p.1 == k) then
    d.map (fun p => if p.1 == k then (k, v) else p)
  else
    d ++ [(k, v)]

/-- The nested loop of `summarize` (`quality.py` lines 185-191, identical in
`main.py`): folds every file's `complexity_grades` into one histogram and
accumulates the count of functions in the worst grades D, E, F. -/
def gradeFold (files : List FileMetrics) : List (String × Nat) × Nat :=
  files.foldl
    (fun st f =>
      f.complexity_grades.foldl
        (fun st2 p =>
          let gc := dictSet st2.1 p.1 (dictGetD st2.1 p.1 + p.2)
          let hc := if p.1 == "D" || p.1 == "E" || p.1 == "F" then st2.2 + p.2 else st2.2
          (gc, hc))
        st)
    ([], 0)

/-- Python `statistics.mean` on a non-empty list: sum divided by length. -/
def pyMean (l : List Rat) : Rat := l.sum / (l.length : Rat)

/-- Character-list matcher: `charsMatch n h` is true when `n` is an initial
segment of `h`. Used to model Python's substring test. -/
def charsMatch : List Char → List Char → Bool
  | [], _ => true
  | _ :: _, [] => false
  | a :: as, b :: bs => a == b && charsMatch as bs

/-- Python `needle in hay` on strings, over the character lists. -/
def hasSubstring (needle : List Char) : List Char → Bool
  | [] => charsMatch needle []
  | b :: bs => charsMatch needle (b :: bs) || hasSubstring needle bs

/-- Stable insertion into a list: `x` is placed before the first element `b`
with `le x b`; elements strictly smaller than `x` stay in front. -/
def insertS (le : α → α → Bool) (x : α) : List α → List α
  | [] => [x]
  | b :: bs => if le x b then x :: b :: bs else b :: insertS le x bs

/-- Stable sort (model of Python `sorted` with a key-induced `le`): inserting
from the right keeps earlier elements in front of later equal ones. -/
def sortS (le : α → α → Bool) : List α → List α
  | [] => []
  | x :: xs => insertS le x (sortS le xs)

namespace Quality

/-- Constant from `quality.py` line 24. -/
def MI_LOW : Rat := 80

/-- Constant from `quality.py` line 25. -/
def MI_HIGH : Rat := 80

/-- Constant from `quality.py` line 26. -/
def TYPING_TARGET : Rat := 80

/-- Embeds `"/tests/" in f.path` — the test-file check used by `print_hotspots`
(`quality.py` line 243) and `scan_project` (`tui.py` line 60). -/
def isTestFile (f : FileMetrics) : Bool :=
  hasSubstring "/tests/".data f.path.data

/-- Embeds `summarize` of `quality.py` (lines 179-217). Note that every
aggregate ranges over the full `files` list; no test-file exclusion occurs
in this function. -/
def summarize (files : List FileMetrics) (root : String) : ProjectSummary :=
  let total_sloc := (files.map (fun f => f.sloc)).sum
  let mi_values := files.filterMap (fun f => if 0 < f.mi then some f.mi else none)
  let low_mi_files := files.countP (fun f => decide (f.mi < MI_LOW))
  let gh := gradeFold files
  let total_functions : Nat := (files.map (fun f => f.total_functions)).sum
  let typed_functions : Nat := (files.map (fun f => f.typed_functions)).sum
  let typing_coverage : Rat :=
    if total_functions ≠ 0 then (typed_functions : Rat) / (total_functions : Rat) * 100 else 0
  let cx_values : List Nat := files.map (fun f => f.cognitive_complexity)
  { root := root
    files_scanned := files.length
    total_sloc := total_sloc
    avg_sloc_per_file := if ¬files.isEmpty then (total_sloc : Rat) / (files.length : Rat) else 0
    avg_mi := if ¬mi_values.isEmpty then pyMean mi_values else 0
    low_mi_files := low_mi_files
    high_complexity_functions := gh.2
    cc_grade_counts := gh.1
    total_functions := total_functions
    typed_functions := typed_functions
    typing_coverage := typing_coverage
    avg_cognitive_complexity :=
      if ¬cx_values.isEmpty then pyMean (cx_values.map (fun c => (c : Rat))) else 0
    max_cognitive_complexity := match cx_values with | [] => 0 | c :: rest => rest.foldl max c }

/-- File comparison used by `sorted(non_test_files, key=lambda f: f.mi)`. -/
def fileMiLe (a b : FileMetrics) : Bool := decide (a.mi ≤ b.mi)

/-- The `worst_files` selection of `print_hotspots` (`quality.py` lines
243-244): drop test files, stable-sort ascending by maintainability index,
keep the first `top_n`. `scan_project` (`tui.py` lines 60-61) computes the
same list with `top_n = 10`. -/
def worst_files (files : List FileMetrics) (top_n : Nat) : List FileMetrics :=
  (sortS fileMiLe (files.filter (fun f => !isTestFile f))).take top_n

/-- Function comparison used by
`sorted(functions, key=lambda fn: fn.cognitive_complexity, reverse=True)`:
descending by cognitive complexity, stable. -/
def fnCxGe (a b : FunctionMetrics) : Bool :=
  decide (b.cognitive_complexity ≤ a.cognitive_complexity)

/-- The `worst_fns` selection of `print_hotspots` (`quality.py` lines
258-260): all functions (test files included), stable-sorted descending by
cognitive complexity, first `top_n`. `scan_project` (`tui.py` lines 62-64)
computes the same list with `top_n = 10`. -/
def worst_functions (functions : List FunctionMetrics) (top_n : Nat) : List FunctionMetrics :=
  (sortS fnCxGe functions).take top_n

/-- The fail flag of the quality gate (`quality.py` lines 354-367): starts
false, each threshold check is evaluated independently and sets it. -/
def gateFail (s : ProjectSummary) (mi_threshold typing_threshold : Rat) : Bool :=
  let fail := false
  let fail := if s.avg_mi < mi_threshold then true else fail
  let fail := if s.typing_coverage < typing_threshold then true else fail
  fail

/-- The failure messages printed by the gate, in program order (numeric
interpolations elided; one fixed message per reason). -/
def gateReasons (s : ProjectSummary) (mi_threshold typing_threshold : Rat) : List String :=
  (if s.avg_mi < mi_threshold then ["[FAIL] Average MI is below threshold"] else []) ++
    (if s.typing_coverage < typing_threshold then ["[FAIL] Typing coverage is below threshold"] else [])

/-- Exit status of `main` (`quality.py` lines 370-371): `SystemExit(1)` when
the gate failed, normal termination (status 0) otherwise. -/
def gateExitCode (s : ProjectSummary) (mi_threshold typing_threshold : Rat) : Nat :=
  if gateFail s mi_threshold typing_threshold then 1 else 0

/-- Embeds `args.fail_mi_below or config("...", default, cast=float)`
(`quality.py` lines 298-303). `args.fail_mi_below` is `None` when the flag is
absent; Python `or` returns its right operand when the left is falsy, and
both `None` and `0.0` are falsy. -/
def resolveThreshold (cli : Option Rat) (envOrDefault : Rat) : Rat :=
  match cli with
  | none => envOrDefault
  | some v => if v = 0 then envOrDefault else v

end Quality

namespace Main

/-- Embeds `summarize` of `main.py` (lines 171-211): identical to
`quality.py`'s `summarize` except that the low-MI count uses the local
constant `LOW_MI_THRESHOLD = 65.0` (line 175). -/
def summarize (files : List FileMetrics) (root : String) : ProjectSummary :=
  let total_sloc := (files.map (fun f => f.sloc)).sum
  let mi_values := files.filterMap (fun f => if 0 < f.mi then some f.mi else none)
  let low_mi_files := files.countP (fun f => decide (f.mi < 65))
  let gh := gradeFold files
  let total_functions : Nat := (files.map (fun f => f.total_functions)).sum
  let typed_functions : Nat := (files.map (fun f => f.typed_functions)).sum
  let typing_coverage : Rat :=
    if total_functions ≠ 0 then (typed_functions : Rat) / (total_functions : Rat) * 100 else 0
  let cx_values : List Nat := files.map (fun f => f.cognitive_complexity)
  { root := root
    files_scanned := files.length
    total_sloc := total_sloc
    avg_sloc_per_file := if ¬files.isEmpty then (total_sloc : Rat) / (files.length : Rat) else 0
    avg_mi := if ¬mi_values.isEmpty then pyMean mi_values else 0
    low_mi_files := low_mi_files
    high_complexity_functions := gh.2
    cc_grade_counts := gh.1
    total_functions := total_functions
    typed_functions := typed_functions
    typing_coverage := typing_coverage
    avg_cognitive_complexity :=
      if ¬cx_values.isEmpty then pyMean (cx_values.map (fun c => (c : Rat))) else 0
    max_cognitive_complexity := match cx_values with | [] => 0 | c :: rest => rest.foldl max c }

/-- The `worst_files` selection of `main.py`'s `print_hotspots` (line 226):
the whole collection — no test-file filter — stable-sorted ascending by
maintainability index (the same `key=lambda f: f.mi` comparison), first
`top_n`. -/
def worst_files (files : List FileMetrics) (top_n : Nat) : List FileMetrics :=
  (sortS Quality.fileMiLe files).take top_n

end Main

/-- Outcome of one `analyze_file(path)` call as seen by `scan_project`
(`tui.py` lines 44-49): a successful record pair, `None` for undecodable
bytes (`quality.py` lines 109-112), or a raised `SyntaxError`. -/
inductive AnalyzeOutcome where
  | ok (fm : FileMetrics) (fns : List FunctionMetrics)
  | undecodable
  | unparseable
  deriving DecidableEq, Repr

namespace Tui

/-- The per-file loop of `scan_project` (`tui.py` lines 42-56): a
`SyntaxError` increments `skipped` and continues, a `None` result is
silently dropped, a successful result appends its file record and extends
the function records. -/
def scanLoop : List AnalyzeOutcome → List FileMetrics × List FunctionMetrics × Nat
  | [] => ([], [], 0)
  | AnalyzeOutcome.ok fm fns :: rest =>
      let r := scanLoop rest
      (fm :: r.1, fns ++ r.2.1, r.2.2)
  | AnalyzeOutcome.undecodable :: rest => scanLoop rest
  | AnalyzeOutcome.unparseable :: rest =>
      let r := scanLoop rest
      (r.1, r.2.1, r.2.2 + 1)

/-- Embeds `scan_project` (`tui.py` lines 36-66), with the analyzer results
for the walked files supplied as data: returns the summary (computed by
`quality.summarize` on the surviving file records), the ten worst non-test
files, the ten worst functions and the skip counter. -/
def scan_project (outcomes : List AnalyzeOutcome) (root : String) :
    ProjectSummary × List FileMetrics × List FunctionMetrics × Nat :=
  let r := scanLoop outcomes
  (Quality.summarize r.1 root, Quality.worst_files r.1 10, Quality.worst_functions r.2.1 10, r.2.2)

/-- The file records of the successful outcomes, in order. -/
def okFiles (outcomes : List AnalyzeOutcome) : List FileMetrics :=
  outcomes.filterMap (fun o => match o with | AnalyzeOutcome.ok fm _ => some fm | _ => none)

/-- The function records of the successful outcomes, concatenated in order. -/
def okFns (outcomes : List AnalyzeOutcome) : List FunctionMetrics :=
  (outcomes.map (fun o => match o with | AnalyzeOutcome.ok _ fns => fns | _ => [])).flatten

/-- Number of outcomes that raised a syntax error. -/
def countUnparseable (outcomes : List AnalyzeOutcome) : Nat :=
  outcomes.countP (fun o => match o with | AnalyzeOutcome.unparseable => true | _ => false)

end Tui


-- General lemmas about the stable sort `sortS`.

theorem mem_insertS (le : α → α → Bool) (x y : α) :
    ∀ l : List α, (y ∈ insertS le x l ↔ y = x ∨ y ∈ l)
  | [] => by simp [insertS]
  | b :: bs => by
    rw [insertS]
    by_cases hxb : le x b = true
    · simp [hxb]
    · simp only [if_neg hxb, List.mem_cons, mem_insertS le x y bs]
      tauto

theorem perm_insertS (le : α → α → Bool) (x : α) :
    ∀ l : List α, List.Perm (insertS le x l) (x :: l)
  | [] => List.Perm.refl _
  | b :: bs => by
    rw [insertS]
    by_cases hxb : le x b = true
    · rw [if_pos hxb]
    · rw [if_neg hxb]
      exact ((perm_insertS le x bs).cons b).trans (List.Perm.swap x b bs)

theorem perm_sortS (le : α → α → Bool) : ∀ l : List α, List.Perm (sortS le l) l
  | [] => List.Perm.refl _
  | x :: xs =>
    (perm_insertS le x (sortS le xs)).trans ((perm_sortS le xs).cons x)

theorem length_sortS (le : α → α → Bool) (l : List α) :
    (sortS le l).length = l.length :=
  (perm_sortS le l).length_eq

theorem pairwise_insertS {le : α → α → Bool}
    (htot : ∀ a b, le a b = false → le b a = true)
    (htrans : ∀ a b c, le a b = true → le b c = true → le a c = true)
    (x : α) :
    ∀ {l : List α}, List.Pairwise (fun a b => le a b = true) l →
      List.Pairwise (fun a b => le a b = true) (insertS le x l)
  | [], _ => by simp [insertS]
  | b :: bs, h => by
    rw [insertS]
    rcases List.pairwise_cons.mp h with ⟨hb, hbs⟩
    by_cases hxb : le x b = true
    · rw [if_pos hxb]
      refine List.Pairwise.cons ?_ h
      intro y hy
      rcases List.mem_cons.mp hy with hyb | hy
      · rw [hyb]; exact hxb
      · exact htrans x b y hxb (hb y hy)
    · rw [if_neg hxb]
      refine List.Pairwise.cons ?_ (pairwise_insertS htot htrans x hbs)
      intro y hy
      rcases (mem_insertS le x y bs).mp hy with hyx | hy
      · rw [hyx]; exact htot x b (Bool.not_eq_true _ ▸ hxb)
      · exact hb y hy

theorem pairwise_sortS {le : α → α → Bool}
    (htot : ∀ a b, le a b = false → le b a = true)
    (htrans : ∀ a b c, le a b = true → le b c = true → le a c = true) :
    ∀ l : List α, List.Pairwise (fun a b => le a b = true) (sortS le l)
  | [] => List.Pairwise.nil
  | x :: xs => pairwise_insertS htot htrans x (pairwise_sortS htot htrans xs)

theorem filter_insertS_pos {le : α → α → Bool} {p : α → Bool} {x : α}
    (hx : p x = true) (h2 : ∀ b, le x b = false → p b = false) :
    ∀ l : List α, (insertS le x l).filter p = x :: l.filter p
  | [] => by simp [insertS, hx]
  | b :: bs => by
    rw [insertS]
    by_cases hxb : le x b = true
    · rw [if_pos hxb, List.filter_cons_of_pos hx]
    · have hpb : p b = false := h2 b (Bool.not_eq_true _ ▸ hxb)
      rw [if_neg hxb, List.filter_cons_of_neg (by simp [hpb]),
        filter_insertS_pos hx h2 bs, List.filter_cons_of_neg (by simp [hpb])]

theorem filter_insertS_neg {le : α → α → Bool} {p : α → Bool} {x : α}
    (hx : p x = false) :
    ∀ l : List α, (insertS le x l).filter p = l.filter p
  | [] => by simp [insertS, hx]
  | b :: bs => by
    rw [insertS]
    by_cases hxb : le x b = true
    · rw [if_pos hxb, List.filter_cons_of_neg (by simp [hx])]
    · by_cases hpb : p b = true
      · rw [if_neg hxb, List.filter_cons_of_pos hpb, filter_insertS_neg hx bs,
          List.filter_cons_of_pos hpb]
      · have hpb' : p b = false := Bool.not_eq_true _ ▸ hpb
        rw [if_neg hxb, List.filter_cons_of_neg (by simp [hpb']),
          filter_insertS_neg hx bs, List.filter_cons_of_neg (by simp [hpb'])]

/-- Stability of `sortS`: the elements singled out by a predicate that is
downward-closed under "strictly precedes" keep their original relative
order (their filtered subsequence is unchanged by sorting). -/
theorem filter_sortS {le : α → α → Bool} {p : α → Bool}
    (hcmp : ∀ x b, p x = true → le x b = false → p b = false) :
    ∀ l : List α, (sortS le l).filter p = l.filter p
  | [] => rfl
  | x :: xs => by
    rw [sortS]
    by_cases hx : p x = true
    · rw [filter_insertS_pos hx (fun b => hcmp x b hx) (sortS le xs), filter_sortS hcmp xs,
        List.filter_cons_of_pos hx]
    · have hx' : p x = false := Bool.not_eq_true _ ▸ hx
      rw [filter_insertS_neg hx' (sortS le xs), filter_sortS hcmp xs,
        List.filter_cons_of_neg (by simp [hx'])]

-- Comparison facts for the two sort orders.

theorem fileMiLe_total (a b : FileMetrics) :
    Quality.fileMiLe a b = false → Quality.fileMiLe b a = true := by
  simp only [Quality.fileMiLe, decide_eq_false_iff_not, decide_eq_true_eq]
  intro h
  exact le_of_not_le h

theorem fileMiLe_trans (a b c : FileMetrics) :
    Quality.fileMiLe a b = true → Quality.fileMiLe b c = true →
      Quality.fileMiLe a c = true := by
  simp only [Quality.fileMiLe, decide_eq_true_eq]
  exact le_trans

theorem fnCxGe_total (a b : FunctionMetrics) :
    Quality.fnCxGe a b = false → Quality.fnCxGe b a = true := by
  simp only [Quality.fnCxGe, decide_eq_false_iff_not, decide_eq_true_eq]
  intro h
  exact le_of_not_le h

theorem fnCxGe_trans (a b c : FunctionMetrics) :
    Quality.fnCxGe a b = true → Quality.fnCxGe b c = true →
      Quality.fnCxGe a c = true := by
  simp only [Quality.fnCxGe, decide_eq_true_eq]
  intro h1 h2
  exact le_trans h2 h1

/-- Characterization of `sorted(l, key=lambda f: f.mi)[:N]` over an
arbitrary file list `l`: length `min(N, len(l))`, ascending by
maintainability index, entries drawn from `l`, kept entries at most every
omitted entry (up to permutation of `l`), and ties in original order. -/
theorem take_sortS_mi_spec (l : List FileMetrics) (N : Nat) :
    ((sortS Quality.fileMiLe l).take N).length = min N l.length ∧
    List.Pairwise (fun a b => a.mi ≤ b.mi) ((sortS Quality.fileMiLe l).take N) ∧
    (∀ f ∈ (sortS Quality.fileMiLe l).take N, f ∈ l) ∧
    (∃ rest, List.Perm ((sortS Quality.fileMiLe l).take N ++ rest) l ∧
        ∀ f ∈ (sortS Quality.fileMiLe l).take N, ∀ g ∈ rest, f.mi ≤ g.mi) ∧
    (∀ v : Rat, List.Sublist
        (((sortS Quality.fileMiLe l).take N).filter (fun f => decide (f.mi = v)))
        (l.filter (fun f => decide (f.mi = v)))) := by
  have hpair := pairwise_sortS fileMiLe_total fileMiLe_trans l
  refine ⟨?_, ?_, ?_, ?_, ?_⟩
  · rw [List.length_take, length_sortS]
  · have h := hpair.sublist (List.take_sublist N _)
    exact h.imp (fun hab => of_decide_eq_true hab)
  · intro f hf
    exact (perm_sortS Quality.fileMiLe l).mem_iff.mp ((List.take_sublist N _).mem hf)
  · refine ⟨(sortS Quality.fileMiLe l).drop N, ?_, ?_⟩
    · rw [List.take_append_drop]
      exact perm_sortS _ _
    · intro f hf g hg
      have := List.pairwise_append.mp
        ((List.take_append_drop N (sortS Quality.fileMiLe l)).symm ▸ hpair)
      exact of_decide_eq_true (this.2.2 f hf g hg)
  · intro v
    have hsub : List.Sublist
        (((sortS Quality.fileMiLe l).take N).filter (fun f => decide (f.mi = v)))
        ((sortS Quality.fileMiLe l).filter (fun f => decide (f.mi = v))) :=
      (List.take_sublist N _).filter _
    rw [filter_sortS (fun x b hx hle => ?_) _] at hsub
    · exact hsub
    · simp only [decide_eq_true_eq] at hx
      simp only [Quality.fileMiLe, decide_eq_false_iff_not, decide_eq_true_eq] at hle
      simp only [decide_eq_false_iff_not, decide_eq_true_eq]
      intro hbv
      exact hle (le_of_eq (hx.trans hbv.symm))

/-- C3 (amended): the `worst_files` list of `quality.py`'s `print_hotspots`
(and of `tui.py`'s `scan_project`) contains exactly the `min(N, number of
non-test files)` lowest-maintainability non-test files — ascending by
maintainability index, ties in original discovery order, entries plus the
omitted non-test files a permutation of all non-test files with kept
indices at most omitted ones, and a tests-directory file never appears.
But `main.py`'s older `print_hotspots` (line 226, also cited by the claim)
applies no test filter: its `worst_files` is the same stable selection over
the WHOLE collection — `min(N, number of all files)` entries drawn from all
files — so there a tests-directory file with the lowest index does appear. -/
theorem worst_files_amended (files : List FileMetrics) (N : Nat) :
    (Quality.worst_files files N).length
        = min N (files.filter (fun f => !Quality.isTestFile f)).length ∧
    List.Pairwise (fun a b => a.mi ≤ b.mi) (Quality.worst_files files N) ∧
    (∀ f ∈ Quality.worst_files files N, f ∈ files ∧ Quality.isTestFile f = false) ∧
    (∃ rest, List.Perm (Quality.worst_files files N ++ rest)
          (files.filter (fun f => !Quality.isTestFile f)) ∧
        ∀ f ∈ Quality.worst_files files N, ∀ g ∈ rest, f.mi ≤ g.mi) ∧
    (∀ v : Rat, List.Sublist
        ((Quality.worst_files files N).filter (fun f => decide (f.mi = v)))
        ((files.filter (fun f => !Quality.isTestFile f)).filter (fun f => decide (f.mi = v)))) ∧
    (Main.worst_files files N).length = min N files.length ∧
    List.Pairwise (fun a b => a.mi ≤ b.mi) (Main.worst_files files N) ∧
    (∀ f ∈ Main.worst_files files N, f ∈ files) ∧
    (∃ rest, List.Perm (Main.worst_files files N ++ rest) files ∧
        ∀ f ∈ Main.worst_files files N, ∀ g ∈ rest, f.mi ≤ g.mi) ∧
    (∀ v : Rat, List.Sublist
        ((Main.worst_files files N).filter (fun f => decide (f.mi = v)))
        (files.filter (fun f => decide (f.mi = v)))) := by
  have hq := take_sortS_mi_spec (files.filter (fun f => !Quality.isTestFile f)) N
  have hm := take_sortS_mi_spec files N
  refine ⟨hq.1, hq.2.1, ?_, hq.2.2.2.1, hq.2.2.2.2, hm.1, hm.2.1, hm.2.2.1,
    hm.2.2.2.1, hm.2.2.2.2⟩
  intro f hf
  have hmem := hq.2.2.1 f hf
  have h2 := List.mem_filter.mp hmem
  exact ⟨h2.1, by simpa using h2.2⟩

/-- C4: `worst_functions` holds exactly the `min(N, number of functions)`
highest-cognitive-complexity functions across all files (test files
included, since no filtering occurs): its length is that minimum (hence at
most `N`, with no error on short or empty input), it is sorted descending
by cognitive complexity, every entry is an input function, the entries plus
the omitted functions are a permutation of all functions with every kept
complexity at least every omitted complexity, and ties keep the original
discovery order (stable sort). -/
theorem worst_functions_spec (fns : List FunctionMetrics) (N : Nat) :
    (Quality.worst_functions fns N).length = min N fns.length ∧
    (Quality.worst_functions fns N).length ≤ N ∧
    List.Pairwise (fun a b => b.cognitive_complexity ≤ a.cognitive_complexity)
      (Quality.worst_functions fns N) ∧
    (∀ fn ∈ Quality.worst_functions fns N, fn ∈ fns) ∧
    (∃ rest, List.Perm (Quality.worst_functions fns N ++ rest) fns ∧
        ∀ f ∈ Quality.worst_functions fns N, ∀ g ∈ rest,
          g.cognitive_complexity ≤ f.cognitive_complexity) ∧
    (∀ c : Nat, List.Sublist
        ((Quality.worst_functions fns N).filter (fun fn => decide (fn.cognitive_complexity = c)))
        (fns.filter (fun fn => decide (fn.cognitive_complexity = c)))) := by
  have hpair := pairwise_sortS fnCxGe_total fnCxGe_trans fns
  refine ⟨?_, ?_, ?_, ?_, ?_, ?_⟩
  · rw [Quality.worst_functions, List.length_take, length_sortS]
  · rw [Quality.worst_functions, List.length_take]
    exact Nat.min_le_left _ _
  · have h := hpair.sublist (List.take_sublist N _)
    exact h.imp (fun hab => of_decide_eq_true hab)
  · intro fn hfn
    exact (perm_sortS Quality.fnCxGe fns).mem_iff.mp ((List.take_sublist N _).mem hfn)
  · refine ⟨(sortS Quality.fnCxGe fns).drop N, ?_, ?_⟩
    · rw [Quality.worst_functions, List.take_append_drop]
      exact perm_sortS _ _
    · intro f hf g hg
      have := List.pairwise_append.mp
        ((List.take_append_drop N (sortS Quality.fnCxGe fns)).symm ▸ hpair)
      exact of_decide_eq_true (this.2.2 f hf g hg)
  · intro c
    have hsub : List.Sublist
        ((Quality.worst_functions fns N).filter (fun fn => decide (fn.cognitive_complexity = c)))
        ((sortS Quality.fnCxGe fns).filter (fun fn => decide (fn.cognitive_complexity = c))) :=
      (List.take_sublist N _).filter _
    rw [filter_sortS (fun x b hx hle => ?_) _] at hsub
    · exact hsub
    · simp only [decide_eq_true_eq] at hx
      simp only [Quality.fnCxGe, decide_eq_false_iff_not, decide_eq_true_eq] at hle
      simp only [decide_eq_false_iff_not, decide_eq_true_eq]
      intro hbv
      exact hle (le_of_eq (hbv.trans hx.symm))

-- Characterization of the scan loop.

theorem scanLoop_files (outcomes : List AnalyzeOutcome) :
    (Tui.scanLoop outcomes).1 = Tui.okFiles outcomes := by
  induction outcomes with
  | nil => rfl
  | cons o rest ih =>
    cases o <;> simp [Tui.scanLoop, Tui.okFiles, List.filterMap_cons] <;>
      simpa [Tui.okFiles] using ih

theorem scanLoop_fns (outcomes : List AnalyzeOutcome) :
    (Tui.scanLoop outcomes).2.1 = Tui.okFns outcomes := by
  induction outcomes with
  | nil => rfl
  | cons o rest ih =>
    cases o <;> simp [Tui.scanLoop, Tui.okFns] <;> simpa [Tui.okFns] using ih

theorem scanLoop_skipped (outcomes : List AnalyzeOutcome) :
    (Tui.scanLoop outcomes).2.2 = Tui.countUnparseable outcomes := by
  induction outcomes with
  | nil => rfl
  | cons o rest ih =>
    cases o <;> simp [Tui.scanLoop, Tui.countUnparseable, List.countP_cons] <;>
      simpa [Tui.countUnparseable] using ih

/-- C7: the scan treats the two failure modes distinctly and continues: the
skip counter equals the number of `SyntaxError` outcomes, the summary is
computed over exactly the successfully analyzed files (so `files_scanned`
counts them), an undecodable (`None`) outcome changes nothing at all — no
counter — while a `SyntaxError` outcome only increments the skip counter;
in particular two files of which the first is unparseable give skip count 1,
`files_scanned` 1 and a summary carrying the surviving file's metrics. -/
theorem scan_project_spec (outcomes : List AnalyzeOutcome) (root : String)
    (fm : FileMetrics) (fns : List FunctionMetrics) :
    (Tui.scan_project outcomes root).2.2.2 = Tui.countUnparseable outcomes ∧
    (Tui.scan_project outcomes root).1 = Quality.summarize (Tui.okFiles outcomes) root ∧
    (Tui.scan_project outcomes root).1.files_scanned = (Tui.okFiles outcomes).length ∧
    Tui.scan_project (AnalyzeOutcome.undecodable :: outcomes) root
        = Tui.scan_project outcomes root ∧
    (Tui.scan_project (AnalyzeOutcome.unparseable :: outcomes) root).2.2.2
        = (Tui.scan_project outcomes root).2.2.2 + 1 ∧
    (Tui.scan_project (AnalyzeOutcome.unparseable :: outcomes) root).1
        = (Tui.scan_project outcomes root).1 ∧
    Tui.scan_project [AnalyzeOutcome.unparseable, AnalyzeOutcome.ok fm fns] root
        = (Quality.summarize [fm] root, Quality.worst_files [fm] 10,
            Quality.worst_functions fns 10, 1) ∧
    (Tui.scan_project [AnalyzeOutcome.unparseable, AnalyzeOutcome.ok fm fns] root).1.files_scanned
        = 1 := by
  refine ⟨?_, ?_, ?_, ?_, ?_, ?_, ?_, ?_⟩
  · simp [Tui.scan_project, scanLoop_skipped]
  · simp [Tui.scan_project, scanLoop_files]
  · simp [Tui.scan_project, scanLoop_files, Quality.summarize]
  · simp [Tui.scan_project, Tui.scanLoop]
  · simp [Tui.scan_project, Tui.scanLoop]
  · simp [Tui.scan_project, Tui.scanLoop]
  · simp [Tui.scan_project, Tui.scanLoop]
  · simp [Tui.scan_project, Tui.scanLoop, Quality.summarize]

/-- C5: the quality gate fails exactly when the average maintainability
index is strictly below its threshold or typing coverage is strictly below
its threshold; equality at a threshold does not fail; both checks are
independent, so both failure messages are reported when both trigger; a
failing gate exits with status 1 and a passing gate with status 0. -/
theorem quality_gate_spec (s : ProjectSummary) (mi_threshold typing_threshold : Rat) :
    (Quality.gateFail s mi_threshold typing_threshold = true ↔
      (s.avg_mi < mi_threshold ∨ s.typing_coverage < typing_threshold)) ∧
    (s.avg_mi = mi_threshold → typing_threshold ≤ s.typing_coverage →
      Quality.gateFail s mi_threshold typing_threshold = false) ∧
    (s.avg_mi < mi_threshold → s.typing_coverage < typing_threshold →
      Quality.gateReasons s mi_threshold typing_threshold =
        ["[FAIL] Average MI is below threshold",
          "[FAIL] Typing coverage is below threshold"]) ∧
    (Quality.gateFail s mi_threshold typing_threshold = true →
      Quality.gateExitCode s mi_threshold typing_threshold = 1) ∧
    (Quality.gateFail s mi_threshold typing_threshold = false →
      Quality.gateExitCode s mi_threshold typing_threshold = 0) := by
  refine ⟨?_, ?_, ?_, ?_, ?_⟩
  · by_cases h1 : s.avg_mi < mi_threshold <;>
      by_cases h2 : s.typing_coverage < typing_threshold <;>
      simp [Quality.gateFail, h1, h2]
  · intro h1 h2
    simp [Quality.gateFail, h1, h2.not_lt]
  · intro h1 h2
    simp [Quality.gateReasons, h1, h2]
  · intro h
    simp [Quality.gateExitCode, h]
  · intro h
    simp [Quality.gateExitCode, h]

/-- A summary whose average MI and typing coverage both sit strictly below
the default thresholds; used to witness the gate behaviour. -/
def gateDemoSummary : ProjectSummary :=
  { root := "r", files_scanned := 1, total_sloc := 10, avg_sloc_per_file := 10,
    avg_mi := 50, low_mi_files := 1, high_complexity_functions := 0,
    cc_grade_counts := [("A", 1)], total_functions := 2, typed_functions := 1,
    typing_coverage := 50, avg_cognitive_complexity := 3, max_cognitive_complexity := 5 }

/-- Witness for C5 at a concrete summary: both metrics below 80, both
reasons reported, exit status 1; and at equal-threshold metrics, no fail. -/
theorem quality_gate_spec_witness :
    Quality.gateFail gateDemoSummary 80 80 = true ∧
    Quality.gateReasons gateDemoSummary 80 80 =
      ["[FAIL] Average MI is below threshold",
        "[FAIL] Typing coverage is below threshold"] ∧
    Quality.gateExitCode gateDemoSummary 80 80 = 1 ∧
    Quality.gateFail gateDemoSummary 50 50 = false := by
  have h := quality_gate_spec gateDemoSummary 80 80
  have h50 := quality_gate_spec gateDemoSummary 50 50
  refine ⟨?_, ?_, ?_, ?_⟩
  · exact h.1.mpr (Or.inl (by decide))
  · exact h.2.2.1 (by decide) (by decide)
  · exact h.2.2.2.1 (h.1.mpr (Or.inl (by decide)))
  · exact h50.2.1 (by decide) (by decide)

/-- C6: the threshold actually used by the gate. The CLI override wins only
when it is a truthy float: Python `or` sends the explicit override `0.0`
back to the environment/built-in default, so `--fail-mi-below 0.0` is
silently replaced by `MI_LOW = 80.0`; any non-zero override and the
no-override case behave as documented. -/
theorem resolveThreshold_zero_override :
    Quality.resolveThreshold (some 0) Quality.MI_LOW = 80 ∧
    ¬Quality.resolveThreshold (some 0) Quality.MI_LOW = 0 ∧
    Quality.resolveThreshold (some 50) 10 = 50 ∧
    Quality.resolveThreshold none Quality.MI_LOW = 80 := by
  refine ⟨by decide, by decide, by decide, by decide⟩

-- Concrete records used as counterexample / witness inputs.

/-- A file inside a tests directory with maintainability index 10, far below
the low-maintainability threshold. -/
def lowMiTestFile : FileMetrics :=
  { path := "pkg/tests/test_a.py", sloc := 10, lloc := 8, comments := 1,
    complexity_grades := [("A", 1)], worst_cc := 3, worst_cc_rank := "A", mi := 10,
    mi_rank := "C", total_functions := 2, typed_functions := 1,
    cognitive_complexity := 5, max_function_cognitive_complexity := 6 }

/-- A file exactly at the low-maintainability threshold. -/
def atThresholdFile : FileMetrics :=
  { path := "app/border.py", sloc := 10, lloc := 8, comments := 1,
    complexity_grades := [("A", 1)], worst_cc := 3, worst_cc_rank := "A", mi := 80,
    mi_rank := "A", total_functions := 2, typed_functions := 1,
    cognitive_complexity := 5, max_function_cognitive_complexity := 6 }

/-- A tests-directory file whose single function is typed and which has
positive cognitive complexity. -/
def typedTestFile : FileMetrics :=
  { path := "pkg/tests/test_b.py", sloc := 12, lloc := 9, comments := 2,
    complexity_grades := [("A", 1)], worst_cc := 2, worst_cc_rank := "A", mi := 90,
    mi_rank := "A", total_functions := 1, typed_functions := 1,
    cognitive_complexity := 5, max_function_cognitive_complexity := 5 }

/-- A non-test application file with one function, none of them typed. -/
def untypedAppFile : FileMetrics :=
  { path := "app/module.py", sloc := 10, lloc := 8, comments := 1,
    complexity_grades := [("A", 1)], worst_cc := 1, worst_cc_rank := "A", mi := 90,
    mi_rank := "A", total_functions := 1, typed_functions := 0,
    cognitive_complexity := 2, max_function_cognitive_complexity := 2 }

/-- A non-test application file with one of two functions typed. -/
def halfTypedFile : FileMetrics :=
  { path := "app/half.py", sloc := 10, lloc := 8, comments := 1,
    complexity_grades := [("A", 1)], worst_cc := 1, worst_cc_rank := "A", mi := 70,
    mi_rank := "B", total_functions := 2, typed_functions := 1,
    cognitive_complexity := 2, max_function_cognitive_complexity := 2 }

/-- C1 counterexample: `summarize` counts a tests-directory record with
maintainability index 10 < 80 in `low_mi_files`, so on a collection holding
exactly that one test file the count is 1 where the claim demands 0 — the
count is not restricted to non-test files. -/
theorem low_mi_files_testfile_counterexample :
    Quality.isTestFile lowMiTestFile = true ∧
    lowMiTestFile.mi < Quality.MI_LOW ∧
    (Quality.summarize [lowMiTestFile] "r").low_mi_files = 1 := by
  refine ⟨by decide, by decide, by decide⟩

/-- C1 (amended): `low_mi_files` counts the records of the whole collection
— test files included — whose maintainability index is strictly below the
low threshold; a record exactly at the threshold is not counted, a record
strictly below it is counted even when it lies in a tests directory. -/
theorem low_mi_files_amended (files : List FileMetrics) (root : String) (f : FileMetrics) :
    (Quality.summarize files root).low_mi_files
        = (files.filter (fun g => decide (g.mi < Quality.MI_LOW))).length ∧
    (f.mi = Quality.MI_LOW →
      (Quality.summarize (f :: files) root).low_mi_files
        = (Quality.summarize files root).low_mi_files) ∧
    (f.mi < Quality.MI_LOW →
      (Quality.summarize (f :: files) root).low_mi_files
        = (Quality.summarize files root).low_mi_files + 1) := by
  refine ⟨?_, ?_, ?_⟩
  · simp [Quality.summarize, List.countP_eq_length_filter]
  · intro h
    simp [Quality.summarize, List.countP_cons, h]
  · intro h
    simp [Quality.summarize, List.countP_cons, h]

/-- Witness for C1's amended statement: a record at exactly 80 leaves the
count unchanged, a tests-directory record at 10 increments it. -/
theorem low_mi_files_amended_witness :
    (Quality.summarize [atThresholdFile] "r").low_mi_files
        = (Quality.summarize [] "r").low_mi_files ∧
    (Quality.summarize [lowMiTestFile] "r").low_mi_files
        = (Quality.summarize [] "r").low_mi_files + 1 :=
  ⟨(low_mi_files_amended [] "r" atThresholdFile).2.1 (by decide),
    (low_mi_files_amended [] "r" lowMiTestFile).2.2 (by decide)⟩

/-- C2 counterexample: on a collection holding exactly one tests-directory
file with one typed function and cognitive complexity 5, `summarize`
reports typing coverage 100 and cognitive average/maximum 5 — the claim's
non-test restriction would demand 0.0, 0 and 0. -/
theorem summarize_testfile_aggregates_counterexample :
    Quality.isTestFile typedTestFile = true ∧
    (Quality.summarize [typedTestFile] "r").typing_coverage = 100 ∧
    (Quality.summarize [typedTestFile] "r").avg_cognitive_complexity = 5 ∧
    (Quality.summarize [typedTestFile] "r").max_cognitive_complexity = 5 := by
  refine ⟨by decide, ?_, ?_, by decide⟩
  · norm_num [Quality.summarize, typedTestFile]
  · norm_num [Quality.summarize, typedTestFile, pyMean]

/-- C2 (amended): every aggregate of `summarize` — typing coverage and the
cognitive-complexity average/maximum included — ranges over the full,
unrestricted file set: the function never reads a record's path, so
renaming every path (in particular moving files in or out of tests
directories) leaves the summary unchanged; file count and total SLOC are
the full-set values. -/
theorem summarize_pathblind_amended (files : List FileMetrics) (root : String)
    (g : FileMetrics → String) :
    Quality.summarize (files.map (fun f => { f with path := g f })) root
        = Quality.summarize files root ∧
    (Quality.summarize files root).files_scanned = files.length ∧
    (Quality.summarize files root).total_sloc = (files.map (fun f => f.sloc)).sum := by
  refine ⟨?_, by simp [Quality.summarize], by simp [Quality.summarize]⟩
  simp [Quality.summarize, gradeFold, List.foldl_map, List.filterMap_map, List.countP_map,
    List.map_map, Function.comp_def]

/-- C8 counterexample: a single non-test file with one function and no
typed functions yields typing coverage 0.0 while the total function count
is 1, refuting "coverage is 0.0 exactly when the function total is 0". -/
theorem typing_coverage_zero_counterexample :
    Quality.isTestFile untypedAppFile = false ∧
    (Quality.summarize [untypedAppFile] "r").typing_coverage = 0 ∧
    (Quality.summarize [untypedAppFile] "r").total_functions = 1 := by
  refine ⟨by decide, ?_, by decide⟩
  norm_num [Quality.summarize, untypedAppFile]

/-- C8 (amended): when every record satisfies the data-model invariant
`typed ≤ total`, the summary satisfies `typed_functions ≤ total_functions`,
and typing coverage (computed over all files, test files included) is 0.0
exactly when the summed `typed_functions` count is 0 — which covers the
zero-denominator case but also any fully untyped collection. -/
theorem typing_coverage_amended (files : List FileMetrics) (root : String)
    (h : ∀ f ∈ files, f.typed_functions ≤ f.total_functions) :
    (Quality.summarize files root).typed_functions
        ≤ (Quality.summarize files root).total_functions ∧
    ((Quality.summarize files root).typing_coverage = 0 ↔
      (Quality.summarize files root).typed_functions = 0) := by
  have hsum : (files.map (fun f => f.typed_functions)).sum
      ≤ (files.map (fun f => f.total_functions)).sum := List.sum_le_sum h
  constructor
  · simpa [Quality.summarize] using hsum
  · simp only [Quality.summarize]
    by_cases ht : (files.map (fun f => f.total_functions)).sum = 0
    · have hz : (files.map (fun f => f.typed_functions)).sum = 0 :=
        Nat.le_zero.mp (ht ▸ hsum)
      simp [ht, hz]
    · simp only [ht, ne_eq, not_false_iff, if_true, if_pos]
      constructor
      · intro h0
        rcases mul_eq_zero.mp h0 with h0 | h0
        · rcases div_eq_zero_iff.mp h0 with h0 | h0
          · exact_mod_cast h0
          · exact absurd (Nat.cast_eq_zero.mp h0) ht
        · norm_num at h0
      · intro h0
        rw [h0]
        simp

/-- Witness for C8's amended statement at a half-typed single file:
1 ≤ 2 and coverage 50 is nonzero exactly as the typed count 1 is. -/
theorem typing_coverage_amended_witness :
    (Quality.summarize [halfTypedFile] "r").typed_functions
        ≤ (Quality.summarize [halfTypedFile] "r").total_functions ∧
    ((Quality.summarize [halfTypedFile] "r").typing_coverage = 0 ↔
      (Quality.summarize [halfTypedFile] "r").typed_functions = 0) :=
  typing_coverage_amended [halfTypedFile] "r" (by simp [halfTypedFile])

/-- The guarded mean of the positive maintainability values, multiplied
back by the count, returns their sum (degenerate empty case included). -/
theorem guardedMean_mul (l : List Rat) :
    (if ¬l.isEmpty then pyMean l else 0) * (l.length : Rat) = l.sum := by
  by_cases he : l.isEmpty
  · have hnil : l = [] := List.isEmpty_iff.mp he
    subst hnil
    simp
  · have hne : l ≠ [] := fun hnil => he (by simp [hnil])
    have hlen : (l.length : Rat) ≠ 0 := by
      simp only [ne_eq, Nat.cast_eq_zero, List.length_eq_zero]
      exact hne
    simp [he, pyMean, div_mul_cancel₀ _ hlen]

/-- C9: the empty collection yields a summary with every aggregate at its
zero/neutral default and no division error; moreover for any collection the
average maintainability index is the arithmetic mean of the strictly
positive indices only — their guarded mean times their count equals their
sum, and it defaults to 0 when no strictly positive index exists. -/
theorem summarize_empty_spec (root : String) (files : List FileMetrics) :
    Quality.summarize [] root =
      { root := root, files_scanned := 0, total_sloc := 0, avg_sloc_per_file := 0,
        avg_mi := 0, low_mi_files := 0, high_complexity_functions := 0,
        cc_grade_counts := [], total_functions := 0, typed_functions := 0,
        typing_coverage := 0, avg_cognitive_complexity := 0,
        max_cognitive_complexity := 0 } ∧
    (Quality.summarize files root).avg_mi *
        ((files.filterMap (fun f => if 0 < f.mi then some f.mi else none)).length : Rat)
      = (files.filterMap (fun f => if 0 < f.mi then some f.mi else none)).sum ∧
    (files.filterMap (fun f => if 0 < f.mi then some f.mi else none) = [] →
      (Quality.summarize files root).avg_mi = 0) := by
  refine ⟨rfl, ?_, ?_⟩
  · exact guardedMean_mul (files.filterMap (fun f => if 0 < f.mi then some f.mi else none))
  · intro h
    have hrfl : (Quality.summarize files root).avg_mi =
        (if ¬(files.filterMap (fun f => if 0 < f.mi then some f.mi else none)).isEmpty
          then pyMean (files.filterMap (fun f => if 0 < f.mi then some f.mi else none))
          else 0) := rfl
    rw [hrfl, h]
    simp

/-- Witness for C9 at the empty collection: no positive index exists and
the reported average maintainability index is 0. -/
theorem summarize_empty_spec_witness : (Quality.summarize [] "r").avg_mi = 0 :=
  (summarize_empty_spec "r" []).2.2 rfl

/-- C10: the two `summarize` implementations agree on every field except
`low_mi_files`, which `main.py` counts with threshold 65.0 and `quality.py`
with `MI_LOW = 80.0`; when no file's maintainability index lies in
`[65, 80)` the two summaries are identical. -/
theorem summarize_refinement (files : List FileMetrics) (root : String) :
    (Main.summarize files root).root = (Quality.summarize files root).root ∧
    (Main.summarize files root).files_scanned
        = (Quality.summarize files root).files_scanned ∧
    (Main.summarize files root).total_sloc = (Quality.summarize files root).total_sloc ∧
    (Main.summarize files root).avg_sloc_per_file
        = (Quality.summarize files root).avg_sloc_per_file ∧
    (Main.summarize files root).avg_mi = (Quality.summarize files root).avg_mi ∧
    (Main.summarize files root).high_complexity_functions
        = (Quality.summarize files root).high_complexity_functions ∧
    (Main.summarize files root).cc_grade_counts
        = (Quality.summarize files root).cc_grade_counts ∧
    (Main.summarize files root).total_functions
        = (Quality.summarize files root).total_functions ∧
    (Main.summarize files root).typed_functions
        = (Quality.summarize files root).typed_functions ∧
    (Main.summarize files root).typing_coverage
        = (Quality.summarize files root).typing_coverage ∧
    (Main.summarize files root).avg_cognitive_complexity
        = (Quality.summarize files root).avg_cognitive_complexity ∧
    (Main.summarize files root).max_cognitive_complexity
        = (Quality.summarize files root).max_cognitive_complexity ∧
    (Main.summarize files root).low_mi_files
        = files.countP (fun f => decide (f.mi < 65)) ∧
    (Quality.summarize files root).low_mi_files
        = files.countP (fun f => decide (f.mi < 80)) ∧
    ((∀ f ∈ files, ¬(65 ≤ f.mi ∧ f.mi < 80)) →
      Main.summarize files root = Quality.summarize files root) := by
  refine ⟨rfl, rfl, rfl, rfl, rfl, rfl, rfl, rfl, rfl, rfl, rfl, rfl, rfl, rfl, ?_⟩
  intro h
  have hc : files.countP (fun f => decide (f.mi < 65))
      = files.countP (fun f => decide (f.mi < Quality.MI_LOW)) := by
    refine List.countP_congr ?_
    intro f hf
    simp only [decide_eq_true_eq, Quality.MI_LOW]
    constructor
    · intro h65
      exact lt_of_lt_of_le h65 (by norm_num)
    · intro h80
      by_contra h65
      exact h f hf ⟨le_of_not_lt h65, h80⟩
  simp [Main.summarize, Quality.summarize, ProjectSummary.mk.injEq, hc]

/-- Witness for C10 at a single file with maintainability index 90 (outside
`[65, 80)`): the two implementations return identical summaries. -/
theorem summarize_refinement_witness :
    Main.summarize [untypedAppFile] "r" = Quality.summarize [untypedAppFile] "r" := by
  refine (summarize_refinement [untypedAppFile] "r").2.2.2.2.2.2.2.2.2.2.2.2.2.2 ?_
  intro f hf
  have hf' : f = untypedAppFile := List.mem_singleton.mp hf
  subst hf'
  norm_num [untypedAppFile]

/-- C3 counterexample: `main.py`'s `print_hotspots` (line 226, a cited
source of the claim) sorts the whole collection with no test filter, so the
tests-directory file with the lowest maintainability index heads its
`worst_files` list — the claim says such a file never appears; and on a
collection holding only that test file the list is non-empty although the
claimed length `min(N, number of non-test files)` is 0. -/
theorem worst_files_main_counterexample :
    Main.worst_files [lowMiTestFile, untypedAppFile] 1 = [lowMiTestFile] ∧
    Quality.isTestFile lowMiTestFile = true ∧
    lowMiTestFile.mi < untypedAppFile.mi ∧
    Main.worst_files [lowMiTestFile] 5 = [lowMiTestFile] := by
  refine ⟨by decide, by decide, by decide, by decide⟩
